import Mathlib

/-!
Shallow embedding of the b2c_master_app authentication / authorization core:
`src/auth/session.py` (SessionManager), `src/auth/login.py` (handle_login),
`src/utils/rate_limiter.py` (LoginRateLimiter),
`src/config/database.py` (UserDB, ModuleDB, ActivityLogger),
`src/modules/order_extractor.py` (_fetch_single_page, fetch_orders).

Python dictionaries holding heterogeneous optional fields are embedded as
structures with `Option` fields; `dict.get(k, d)` becomes `Option.getD`;
Python's substring test `pat in s` becomes `pyContains`; `str.lower()` becomes
`pyLower`; exceptions that can escape a function are embedded as an
explicit error case.
-/

namespace B2C

/-- Character-list version of "pat starts the list s". -/
def leadMatch : List Char → List Char → Bool
  | [], _ => true
  | _ :: _, [] => false
  | a :: as, b :: bs => a == b && leadMatch as bs

/-- Character-list version of "pat occurs somewhere inside s". -/
def occursIn (pat : List Char) (s : List Char) : Bool :=
  match s with
  | [] => leadMatch pat []
  | _ :: rest => leadMatch pat s || occursIn pat rest

/-- Python substring membership test: `pat in s` for strings. -/
def pyContains (s pat : String) : Bool := occursIn pat.data s.data

/-- Python `str.lower()`, character by character (the strings the code
lowercases — role names and email addresses — are ASCII). -/
def pyLower (s : String) : String := String.mk (s.data.map Char.toLower)

/-- ASCII whitespace for the purposes of `str.strip()`. -/
def isSpaceChar (c : Char) : Bool :=
  c == ' ' || c == '\t' || c == '\n' || c == '\r'

/-- Python `str.strip()`: drop whitespace from both ends. -/
def pyStrip (s : String) : String :=
  String.mk (((s.data.dropWhile isSpaceChar).reverse.dropWhile
    isSpaceChar).reverse)

/-- Row of the `user_details` view as read by `UserDB.get_user_profile`
(fields used by `session.py`: `full_name`, `role_name`, `is_active`). -/
structure Profile where
  full_name : Option String
  role_name : Option String
  is_active : Option Bool
  deriving DecidableEq

/-- Row of the `modules` table (fields used by the embedded code:
`module_key` and `is_active`).  `module_key` is `Option` because Python
`m.get('module_key')` yields `None` on a row without the key. -/
structure Module where
  module_key : Option String
  is_active : Bool
  deriving DecidableEq

/-- The user dict built in `SessionManager.login` from the provider response. -/
structure AuthUser where
  id : String
  email : String
  deriving DecidableEq

/-- The five Streamlit session-state fields owned by `SessionManager`
(`init_session` in `src/auth/session.py`). -/
structure SessionState where
  authenticated : Bool
  user : Option AuthUser
  profile : Option Profile
  accessible_modules : List Module
  current_module : Option String
  deriving DecidableEq

/-- `SessionManager.init_session`: the anonymous initial session state. -/
def initSession : SessionState :=
  { authenticated := false, user := none, profile := none,
    accessible_modules := [], current_module := none }

/-- `SessionManager.is_admin`: the profile's `role_name` (default empty
string), lowercased, equals the string admin. -/
def is_admin (s : SessionState) : Bool :=
  match s.profile with
  | some p => pyLower (p.role_name.getD "") == "admin"
  | none => false

/-- `SessionManager.has_module_access`: admins always pass; otherwise the
module key must appear among the cached accessible modules
(`any(m.get('module_key') == module_key for m in accessible_modules)`). -/
def has_module_access (s : SessionState) (module_key : String) : Bool :=
  if is_admin s then true
  else s.accessible_modules.any (fun m => m.module_key == some module_key)

/-- The Profile and Permission Store as seen by the embedded code:
the `modules` table (in display order) and the per-user
`user_accessible_modules` view. -/
structure Store where
  modules : List Module
  user_modules : String → List Module

/-- `ModuleDB.get_all_modules`: the whole `modules` table, no filter on
`is_active` (the query in `src/config/database.py` lines 662-680 has no
`eq` clause). -/
def get_all_modules (store : Store) : List Module := store.modules

/-- `ModuleDB.get_active_modules`: the `modules` table filtered by
`is_active = True` (`src/config/database.py` lines 682-700). -/
def get_active_modules (store : Store) : List Module :=
  store.modules.filter (fun m => m.is_active)

/-- `UserDB.get_user_modules`: rows of the `user_accessible_modules` view
for the given user id. -/
def get_user_modules (store : Store) (user_id : String) : List Module :=
  store.user_modules user_id

/-- `SessionManager._load_accessible_modules`: admins get
`ModuleDB.get_all_modules()`, everyone else gets
`UserDB.get_user_modules(user_id)`.  The surrounding try/except never
fires in this embedding because both callees swallow their own errors. -/
def load_accessible_modules (store : Store) (user_id : String)
    (profile : Profile) : List Module :=
  if pyLower (profile.role_name.getD "") == "admin" then get_all_modules store
  else get_user_modules store user_id

/-- Outcome of `supabase.auth.sign_in_with_password`: a response whose
`user` field may be absent, or a raised exception carrying `str(e)`. -/
inductive AuthResult where
  | ok (user : Option AuthUser)
  | err (msg : String)
  deriving DecidableEq

/-- External collaborators consulted by `SessionManager.login`:
the credential store outcome for the submitted email/password, the
`user_details` profile lookup (which returns `None` on its own internal
errors), and the permission store. -/
structure LoginEnv where
  auth : AuthResult
  getProfile : String → Option Profile
  store : Store

/-- `SessionManager.login` (`src/auth/session.py` lines 59-129).  Session
state is threaded explicitly; every failure return in the source happens
before any session-state assignment, and the only statements that can raise
into the except-handler (client creation and `sign_in_with_password`) run
before any assignment as well, which the `AuthResult.err` case mirrors.
`ActivityLogger.log` and `_load_accessible_modules` swallow their own
exceptions in the source, so they cannot abort a success path. -/
def login (env : LoginEnv) (s : SessionState) :
    (Bool × String) × SessionState :=
  match env.auth with
  | AuthResult.err e =>
      if pyContains e "Invalid login credentials" then
        ((false, "Invalid email or password"), s)
      else if pyContains e "Email not confirmed" then
        ((false, "Please verify your email address before logging in"), s)
      else if pyContains e "User not found" then
        ((false, "No account found with this email"), s)
      else
        ((false, "Login failed: " ++ e), s)
  | AuthResult.ok none => ((false, "Invalid email or password"), s)
  | AuthResult.ok (some u) =>
      match env.getProfile u.id with
      | none =>
          ((false, "User profile not found. Please contact administrator."), s)
      | some p =>
          if !(p.is_active.getD false) then
            ((false, "Your account is inactive. Please contact administrator."), s)
          else
            ((true, ""),
             { authenticated := true,
               user := some u,
               profile := some p,
               accessible_modules := load_accessible_modules env.store u.id p,
               current_module := s.current_module })

/-- The names of the methods defined on `SessionManager` in
`src/auth/session.py`, in source order. -/
def sessionManagerOps : List String :=
  ["init_session", "login", "send_password_reset_email",
   "complete_password_reset", "_load_accessible_modules", "logout",
   "is_authenticated", "is_logged_in", "get_user", "get_user_profile",
   "is_admin", "is_manager", "get_accessible_modules", "has_module_access",
   "require_module_access", "require_admin", "set_current_module",
   "get_current_module"]

/-! ## Rate limiter (`src/utils/rate_limiter.py`)

The Streamlit session-state dictionary is embedded as an association list
from state keys to attempt entries.  Timestamps (`time.time()` floats) are
embedded as integers: the code only adds constants to them and compares
them, so the embedding is faithful for any integral schedule of clock
readings.  The three write sites of the module always store a dictionary
carrying all three of the keys `attempts`, `first_attempt`, `locked_until`,
so the entry is a full record and the Python membership test
`'locked_until' in lockout_data` is always true; the value, however, can be
`None`, and `current_time < None` raises `TypeError`, which the embedding
surfaces as an `Except.error`. -/

/-- One value of the per-email tracking dictionary. -/
structure AttemptEntry where
  attempts : Nat
  first_attempt : Option Int
  locked_until : Option Int
  deriving DecidableEq

/-- The Streamlit session-state mapping used by the rate limiter. -/
abbrev RLState := List (String × AttemptEntry)

/-- Dictionary read: first binding for the key, if any. -/
def dictGet (s : RLState) (k : String) : Option AttemptEntry :=
  (s.find? (fun p => p.1 == k)).map (fun p => p.2)

/-- Dictionary write: replace any binding for the key. -/
def dictSet (s : RLState) (k : String) (v : AttemptEntry) : RLState :=
  (k, v) :: s.filter (fun p => !(p.1 == k))

/-- Dictionary delete (`del st.session_state[key]`). -/
def dictDel (s : RLState) (k : String) : RLState :=
  s.filter (fun p => !(p.1 == k))

def MAX_ATTEMPTS : Nat := 5
def LOCKOUT_DURATION_SECONDS : Int := 300
def ATTEMPT_WINDOW_SECONDS : Int := 300

/-- `LoginRateLimiter._get_lockout_key`: lowercased, stripped email. -/
def lockoutKey (email : String) : String :=
  "login_attempts_" ++ pyStrip (pyLower email)

/-- Python truthiness of the stored `first_attempt` value: `None` and the
float `0.0` are both falsy. -/
def truthyTime : Option Int → Bool
  | none => false
  | some t => !(t == 0)

/-- `LoginRateLimiter.is_locked_out`.  On an entry whose `locked_until`
value is `None` the source evaluates `current_time < None`, a `TypeError`,
embedded as `Except.error`.  An expired lockout is cleared as a side
effect, so the (possibly updated) state is returned alongside the flag. -/
def is_locked_out (email : String) (now : Int) (s : RLState) :
    Except Unit (Bool × RLState) :=
  let key := lockoutKey email
  match dictGet s key with
  | none => Except.ok (false, s)
  | some d =>
      match d.locked_until with
      | some lu =>
          if now < lu then Except.ok (true, s)
          else Except.ok (false, dictDel s key)
      | none => Except.error ()

/-- `LoginRateLimiter.get_lockout_remaining_seconds`; like `is_locked_out`
it subtracts from a `locked_until` that may be `None` (a `TypeError`). -/
def get_lockout_remaining_seconds (email : String) (now : Int) (s : RLState) :
    Except Unit Int :=
  match dictGet s (lockoutKey email) with
  | none => Except.ok 0
  | some d =>
      match d.locked_until with
      | some lu => Except.ok (max 0 (lu - now))
      | none => Except.error ()

/-- Shared tail of `LoginRateLimiter.record_failed_attempt`: increment the
counter and set the lockout timestamp once the maximum is reached.  The
source mutates the stored dictionary in place; the embedding writes the
final entry once. -/
def rfaFinish (s : RLState) (key : String) (now : Int) (d : AttemptEntry) :
    RLState :=
  let d2 : AttemptEntry :=
    { attempts := d.attempts + 1, first_attempt := d.first_attempt,
      locked_until := d.locked_until }
  if MAX_ATTEMPTS ≤ d2.attempts then
    dictSet s key
      { attempts := d2.attempts, first_attempt := d2.first_attempt,
        locked_until := some (now + LOCKOUT_DURATION_SECONDS) }
  else dictSet s key d2

/-- `LoginRateLimiter.record_failed_attempt`: open a window on the first
failure, reset on an expired window, otherwise count up and lock at the
threshold. -/
def record_failed_attempt (email : String) (now : Int) (s : RLState) :
    RLState :=
  let key := lockoutKey email
  let d := (dictGet s key).getD
    { attempts := 0, first_attempt := none, locked_until := none }
  if truthyTime d.first_attempt then
    if ATTEMPT_WINDOW_SECONDS < now - (d.first_attempt.getD 0) then
      dictSet s key
        { attempts := 1, first_attempt := some now, locked_until := none }
    else rfaFinish s key now d
  else
    rfaFinish s key now
      { attempts := d.attempts, first_attempt := some now,
        locked_until := d.locked_until }

/-- `LoginRateLimiter.record_successful_login`: drop all state for the
email. -/
def record_successful_login (email : String) (s : RLState) : RLState :=
  dictDel s (lockoutKey email)

/-- `LoginRateLimiter.get_remaining_attempts`: zero while locked out,
otherwise the headroom below the maximum; the `is_locked_out` call can
raise (propagated) and can clear an expired lockout (threaded state). -/
def get_remaining_attempts (email : String) (now : Int) (s : RLState) :
    Except Unit (Nat × RLState) :=
  match is_locked_out email now s with
  | Except.error e => Except.error e
  | Except.ok (true, s1) => Except.ok (0, s1)
  | Except.ok (false, s1) =>
      match dictGet s1 (lockoutKey email) with
      | some d => Except.ok ((max 0 ((MAX_ATTEMPTS : Int) - d.attempts)).toNat, s1)
      | none => Except.ok (MAX_ATTEMPTS, s1)

/-- `LoginRateLimiter.format_lockout_message`: remaining time rendered as
minutes and seconds. -/
def format_lockout_message (email : String) (now : Int) (s : RLState) :
    Except Unit String :=
  match get_lockout_remaining_seconds email now s with
  | Except.error e => Except.error e
  | Except.ok remaining =>
      let minutes := remaining / 60
      let seconds := remaining % 60
      if 0 < minutes then
        Except.ok ("Too many failed login attempts. Account locked for "
          ++ (toString minutes ++ ("m " ++ (toString seconds ++ "s"))))
      else
        Except.ok ("Too many failed login attempts. Account locked for "
          ++ (toString seconds ++ " seconds"))

/-! ## Login handler (`src/auth/login.py`, `handle_login`) -/

/-- Observable outcome of one `handle_login` call: whether a Python
exception escaped the handler, whether `SessionManager.login` (and hence
the credential store) was invoked, the error message displayed if any, and
the rate-limiter and session states after the call (Streamlit session
state persists even when an exception escapes the handler). -/
structure HLResult where
  raised : Bool
  contactedProvider : Bool
  shownMessage : Option String
  rl : RLState
  session : SessionState

/-- `handle_login` (`src/auth/login.py` lines 150-190): consult the rate
limiter first; a locked-out email fails with the lockout message before
`SessionManager.login` is ever called.  Otherwise login runs, a success
clears the counter and a failure records the attempt and reports remaining
headroom (or the lockout message when none remains). -/
def handle_login (email : String) (t : Int) (env : LoginEnv) (rl : RLState)
    (s : SessionState) : HLResult :=
  match is_locked_out email t rl with
  | Except.error _ =>
      { raised := true, contactedProvider := false, shownMessage := none,
        rl := rl, session := s }
  | Except.ok (true, rl1) =>
      match format_lockout_message email t rl1 with
      | Except.ok m =>
          { raised := false, contactedProvider := false,
            shownMessage := some m, rl := rl1, session := s }
      | Except.error _ =>
          { raised := true, contactedProvider := false, shownMessage := none,
            rl := rl1, session := s }
  | Except.ok (false, rl1) =>
      let r := login env s
      if r.1.1 then
        { raised := false, contactedProvider := true, shownMessage := none,
          rl := record_successful_login email rl1, session := r.2 }
      else
        let rl2 := record_failed_attempt email t rl1
        match get_remaining_attempts email t rl2 with
        | Except.error _ =>
            { raised := true, contactedProvider := true, shownMessage := none,
              rl := rl2, session := r.2 }
        | Except.ok (remaining, rl3) =>
            if 0 < remaining then
              { raised := false, contactedProvider := true,
                shownMessage := some r.1.2, rl := rl3, session := r.2 }
            else
              match format_lockout_message email t rl3 with
              | Except.ok m =>
                  { raised := false, contactedProvider := true,
                    shownMessage := some m, rl := rl3, session := r.2 }
              | Except.error _ =>
                  { raised := true, contactedProvider := true,
                    shownMessage := none, rl := rl3, session := r.2 }

/-! ## Activity logger and logout
(`src/config/database.py` `ActivityLogger.log`, `src/auth/session.py`
`SessionManager.logout`) -/

/-- A row inserted into `activity_logs`. -/
structure LogEntry where
  user_id : Option String
  user_email : String
  action_type : String
  module_key : Option String
  description : Option String
  success : Bool
  deriving DecidableEq

/-- External behavior seen by `ActivityLogger.log`: the identity-provider
admin email lookup (`none` when the call raises or returns no user; the
source then falls back to the literal Unknown), and whether the
`activity_logs` insert succeeds (an insert exception is caught inside
`log`, which then returns `False` without appending anything). -/
structure LogEnv where
  emailLookup : Option String
  insertOk : Bool

/-- `ActivityLogger.log`: best-effort append; never raises to its caller.
Returns the success flag and the list of rows appended (empty or a
singleton). -/
def activityLog (env : LogEnv) (user_id : Option String)
    (action_type : String) (module_key : Option String)
    (description : Option String) (success : Bool) : Bool × List LogEntry :=
  let user_email := env.emailLookup.getD "Unknown"
  if env.insertOk then
    (true,
     [{ user_id := user_id, user_email := user_email,
        action_type := action_type, module_key := module_key,
        description := description, success := success }])
  else (false, [])

/-- `SessionManager.logout` (`src/auth/session.py` lines 236-257): when a
user is present, append one best-effort `logout` log row, then clear the
five session fields.  The source wraps the body in try/except, but
`ActivityLogger.log` swallows every exception it can encounter (including
identity-provider failures inside it), so the clearing statements always
run; the source makes no identity-provider sign-out call at all.  Returns
the new session state and the log rows appended. -/
def logout (env : LogEnv) (s : SessionState) : SessionState × List LogEntry :=
  let entries :=
    match s.user with
    | some u =>
        (activityLog env (some u.id) "logout" (some "auth")
          (some "User logged out") true).2
    | none => []
  ({ authenticated := false, user := none, profile := none,
     accessible_modules := [], current_module := none }, entries)

/-! ## Concurrent paginated order fetch (`src/modules/order_extractor.py`)

Records are embedded as opaque numeric ids.  The mocked endpoint maps a
page number to `some records` when the request eventually succeeds (after
the adapter retry policy and the inline 429 retry) and to `none` when it
fails with a non-200 status or an exception after all retries — both of
which the source turns into `(page_num, [], 1)`.  The `as_completed`
iteration order of the worker pool is an arbitrary permutation of the
submitted pages, passed explicitly as `completionOrder`. -/

/-- A paginated endpoint: the page count reported in the
`X-WP-TotalPages` header of successful responses, and each page's outcome. -/
structure PageEnv where
  totalPages : Nat
  page : Nat → Option (List Nat)

/-- Records a page contributes to the accumulator: its records on success,
nothing on failure. -/
def pageRecords (env : PageEnv) (p : Nat) : List Nat := (env.page p).getD []

/-- `_fetch_single_page`: `(page_num, orders, total_pages)`, with
`([], 1)` on an exhausted-retries failure. -/
def fetch_single_page (env : PageEnv) (p : Nat) : Nat × List Nat × Nat :=
  match env.page p with
  | some recs => (p, recs, env.totalPages)
  | none => (p, [], 1)

/-- `fetch_orders`: page 1 is fetched synchronously and fixes the page
count; pages `2..total` are then drained in completion order, each
appending its records to the shared accumulator (`if orders:` merely skips
an append of the empty list, which is the identity). -/
def fetch_orders (env : PageEnv) (completionOrder : List Nat) : List Nat :=
  let r1 := fetch_single_page env 1
  let total := r1.2.2
  let acc := r1.2.1
  if 1 < total then
    completionOrder.foldl (fun a p => a ++ pageRecords env p) acc
  else acc

/-! ## Example values used by witnesses -/

/-- A profile whose role is Admin. -/
def adminProfile : Profile :=
  { full_name := some "Alice", role_name := some "Admin", is_active := some true }

/-- A profile whose role is the ordinary User role. -/
def userProfile : Profile :=
  { full_name := some "Bob", role_name := some "User", is_active := some true }

/-- A profile whose `is_active` flag is false. -/
def inactiveProfile : Profile :=
  { full_name := some "Carol", role_name := some "User", is_active := some false }

/-- An active catalog module. -/
def orderModule : Module := { module_key := some "order_extractor", is_active := true }

/-- A catalog module whose `is_active` flag is false. -/
def legacyModule : Module := { module_key := some "legacy_tool", is_active := false }

/-- An authenticated admin session with an empty cached module set. -/
def adminSession : SessionState :=
  { authenticated := true, user := some { id := "u1", email := "a@x.com" },
    profile := some adminProfile, accessible_modules := [],
    current_module := none }

/-- An authenticated non-admin session whose cache holds one module. -/
def userSession : SessionState :=
  { authenticated := true, user := some { id := "u2", email := "b@x.com" },
    profile := some userProfile, accessible_modules := [orderModule],
    current_module := none }

/-- An empty permission store. -/
def store0 : Store := { modules := [], user_modules := fun _ => [] }

/-- A store whose module catalog holds exactly one inactive module. -/
def storeWithInactive : Store :=
  { modules := [legacyModule], user_modules := fun _ => [] }

/-- A login environment where the provider raises a generic error. -/
def envRawErr : LoginEnv :=
  { auth := AuthResult.err "database is down", getProfile := fun _ => none,
    store := store0 }

/-- A login environment where authentication succeeds for user u3 but the
profile row is inactive. -/
def envInactive : LoginEnv :=
  { auth := AuthResult.ok (some { id := "u3", email := "c@x.com" }),
    getProfile := fun uid => if uid == "u3" then some inactiveProfile else none,
    store := store0 }

/-- The three fixed user-facing login failure messages produced by the
specific provider-error classifiers in `SessionManager.login`. -/
def fixedLoginMessages : List String :=
  ["Invalid email or password",
   "Please verify your email address before logging in",
   "No account found with this email"]

/-- Five failed attempts recorded for the same email at the given times. -/
def rfa5 (email : String) (t1 t2 t3 t4 t5 : Int) (s : RLState) : RLState :=
  record_failed_attempt email t5 (record_failed_attempt email t4
    (record_failed_attempt email t3 (record_failed_attempt email t2
      (record_failed_attempt email t1 s))))

/-- The rate-limiter state after five failed attempts for a@x.com at times
10, 20, 30, 40, 50: the entry is locked until time 350. -/
def rlLocked : RLState := rfa5 "a@x.com" 10 20 30 40 50 []

/-- A mocked 5-page endpoint whose first page fails after all retries
while pages 2 through 5 each return one record. -/
def envPage1Fails : PageEnv :=
  { totalPages := 5,
    page := fun p => if p == 1 then none
      else if p ≤ 5 then some [10 * p] else none }

/-- A mocked 5-page endpoint whose fourth page fails after all retries
while the other pages each return one record. -/
def envPage4Fails : PageEnv :=
  { totalPages := 5,
    page := fun p => if p == 4 then none
      else if p ≤ 5 then some [10 * p] else none }

/-! ## Dictionary and fold lemmas -/

theorem dictGet_dictSet_self (s : RLState) (k : String) (v : AttemptEntry) :
    dictGet (dictSet s k v) k = some v := by
  simp [dictGet, dictSet, List.find?]

theorem dictGet_dictDel_self (s : RLState) (k : String) :
    dictGet (dictDel s k) k = none := by
  induction s with
  | nil => rfl
  | cons hd tl ih =>
      by_cases h : hd.1 == k
      · simp [dictDel, h] at ih ⊢
        exact ih
      · simp [dictDel, dictGet, List.find?, h, ih]

theorem foldl_append_flatMap (f : Nat → List Nat) :
    ∀ (l acc : List Nat),
      l.foldl (fun a p => a ++ f p) acc = acc ++ l.flatMap f
  | [], acc => by simp
  | x :: xs, acc => by
      simp only [List.foldl_cons, List.flatMap_cons]
      rw [foldl_append_flatMap f xs (acc ++ f x)]
      simp [List.append_assoc]

/-! ## Rate-limiter step lemmas -/

/-- A failed attempt for an email with no tracked entry opens a window:
one attempt, first-attempt time now, no lockout. -/
theorem rfa_fresh (email : String) (t : Int) (s : RLState)
    (h0 : dictGet s (lockoutKey email) = none) :
    dictGet (record_failed_attempt email t s) (lockoutKey email)
      = some { attempts := 1, first_attempt := some t, locked_until := none } := by
  simp [record_failed_attempt, h0, truthyTime, rfaFinish, MAX_ATTEMPTS,
    dictGet_dictSet_self]

/-- A failed attempt inside the open window, below the threshold, counts
up and keeps the window start. -/
theorem rfa_count (email : String) (tf now : Int) (s : RLState) (n : Nat)
    (h : dictGet s (lockoutKey email)
      = some { attempts := n, first_attempt := some tf, locked_until := none })
    (htf : tf ≠ 0) (hw : now - tf ≤ ATTEMPT_WINDOW_SECONDS)
    (hn : n + 1 < MAX_ATTEMPTS) :
    dictGet (record_failed_attempt email now s) (lockoutKey email)
      = some { attempts := n + 1, first_attempt := some tf,
               locked_until := none } := by
  simp [record_failed_attempt, h, truthyTime, htf, not_lt.mpr hw, rfaFinish,
    Nat.not_le.mpr hn, dictGet_dictSet_self]

/-- The failed attempt that reaches the maximum sets the lockout
timestamp to now plus the lockout duration. -/
theorem rfa_lock (email : String) (tf now : Int) (s : RLState)
    (h : dictGet s (lockoutKey email)
      = some { attempts := 4, first_attempt := some tf, locked_until := none })
    (htf : tf ≠ 0) (hw : now - tf ≤ ATTEMPT_WINDOW_SECONDS) :
    dictGet (record_failed_attempt email now s) (lockoutKey email)
      = some { attempts := 5, first_attempt := some tf,
               locked_until := some (now + LOCKOUT_DURATION_SECONDS) } := by
  simp [record_failed_attempt, h, truthyTime, htf, not_lt.mpr hw, rfaFinish,
    MAX_ATTEMPTS, dictGet_dictSet_self]

/-! ## Claims -/

/-- Claim C1: `has_module_access(module_key)` returns true unconditionally
when the session's profile has role Admin, even with an empty cached
accessible-module set; for a non-admin session it returns true iff the key
appears among the cached accessible modules. -/
theorem C1_has_module_access (s : SessionState) (k : String) :
    (is_admin s = true → has_module_access s k = true) ∧
    (is_admin s = false →
      (has_module_access s k = true ↔
        ∃ m ∈ s.accessible_modules, m.module_key = some k)) := by
  constructor
  · intro h
    simp [has_module_access, h]
  · intro h
    simp [has_module_access, h, List.any_eq_true]

/-- Witness for C1: a concrete admin session with an empty cache passes
for an arbitrary module key, and a concrete non-admin session passes
exactly on cache membership. -/
theorem C1_has_module_access_witness :
    (is_admin adminSession = true ∧
      has_module_access adminSession "order_extractor" = true) ∧
    (is_admin userSession = false ∧
      (has_module_access userSession "order_extractor" = true ↔
        ∃ m ∈ userSession.accessible_modules,
          m.module_key = some "order_extractor")) :=
  ⟨⟨by decide, (C1_has_module_access adminSession "order_extractor").1 (by decide)⟩,
   ⟨by decide, (C1_has_module_access userSession "order_extractor").2 (by decide)⟩⟩

/-- Claim C2, counterexample: on a provider error whose text matches none
of the three classifiers, `login` returns the message built as Login
failed: followed by the raw provider error text — the raw text is part of
the returned message and the message is outside the fixed set. -/
theorem C2_counterexample :
    (login envRawErr initSession).1.2 = "Login failed: database is down" ∧
    pyContains (login envRawErr initSession).1.2 "database is down" = true ∧
    (login envRawErr initSession).1.2 ∉ fixedLoginMessages := by decide

/-- Claim C2 as amended: every provider-error login failure returns
`success = false` and a message that is either one of the three fixed
user-facing messages or the generic message Login failed: followed by the
provider's raw error text (so the raw text is surfaced in the generic
case). -/
theorem C2_amended_classification (e : String) (gp : String → Option Profile)
    (st : Store) (s : SessionState) :
    (login { auth := AuthResult.err e, getProfile := gp, store := st } s).1.1
        = false ∧
    ((login { auth := AuthResult.err e, getProfile := gp, store := st } s).1.2
        ∈ fixedLoginMessages ∨
      (login { auth := AuthResult.err e, getProfile := gp, store := st } s).1.2
        = "Login failed: " ++ e) := by
  constructor
  · simp only [login]
    split_ifs <;> rfl
  · simp only [login, fixedLoginMessages]
    split_ifs <;> simp

/-- Claim C3: when the credential store authenticates but the profile row
is missing or inactive, `login` fails with a contact-administrator message
and leaves the session state untouched (so an inactive user never reaches
the authenticated state). -/
theorem C3_inactive_never_authenticates (env : LoginEnv) (s : SessionState)
    (u : AuthUser) (hauth : env.auth = AuthResult.ok (some u))
    (hprof : env.getProfile u.id = none ∨
      ∃ p, env.getProfile u.id = some p ∧ p.is_active.getD false = false) :
    (login env s).1.1 = false ∧
    pyContains (login env s).1.2 "contact administrator" = true ∧
    (login env s).2 = s := by
  rcases hprof with h | ⟨p, hp, hin⟩
  · refine ⟨?_, ?_, ?_⟩ <;> simp [login, hauth, h]
    decide
  · refine ⟨?_, ?_, ?_⟩ <;> simp [login, hauth, hp, hin]
    decide

/-- Witness for C3: a concrete environment where authentication succeeds
but the profile is inactive; login fails with the contact-administrator
message and the session is unchanged. -/
theorem C3_witness :
    envInactive.auth = AuthResult.ok (some { id := "u3", email := "c@x.com" }) ∧
    ((login envInactive initSession).1.1 = false ∧
      pyContains (login envInactive initSession).1.2 "contact administrator"
        = true ∧
      (login envInactive initSession).2 = initSession) :=
  ⟨rfl,
   C3_inactive_never_authenticates envInactive initSession
     { id := "u3", email := "c@x.com" } rfl
     (Or.inr ⟨inactiveProfile, rfl, rfl⟩)⟩

/-- Claim C5, counterexample: `SessionManager` has no operation named
refresh_permissions; the claim asserts the session manager provides one. -/
theorem C5_counterexample : ¬ ("refresh_permissions" ∈ sessionManagerOps) := by
  decide

/-- Claim C5 as amended: no `refresh_permissions` operation exists on the
session manager; a non-admin session's `has_module_access(k)` consults only
the session's cached module list (the store is not an input at all), so a
key still present in the cache keeps answering true after a store-side
revocation, until a new `login` rebuilds the cache. -/
theorem C5_amended_no_refresh (s : SessionState) (k : String)
    (hadm : is_admin s = false)
    (hmem : ∃ m ∈ s.accessible_modules, m.module_key = some k) :
    has_module_access s k = true ∧
    "refresh_permissions" ∉ sessionManagerOps := by
  refine ⟨?_, by decide⟩
  simp [has_module_access, hadm, List.any_eq_true]
  exact hmem

/-- Witness for C5 as amended: a concrete non-admin session whose cache
still holds the order-extractor module keeps access, and the operation list
of the session manager has no refresh operation. -/
theorem C5_amended_no_refresh_witness :
    is_admin userSession = false ∧
    (has_module_access userSession "order_extractor" = true ∧
      "refresh_permissions" ∉ sessionManagerOps) :=
  ⟨by decide,
   C5_amended_no_refresh userSession "order_extractor" (by decide) (by decide)⟩

/-- Claim C6 (code bug evaluation): for an admin profile
`_load_accessible_modules` returns `ModuleDB.get_all_modules()`, the whole
catalog with no filter on the active flag, so a catalog holding one
inactive module is returned as-is — although the method's own docstring
says admins get all active modules and `ModuleDB.get_active_modules`
(which does filter) sits unused beside it. -/
theorem C6_admin_gets_inactive_modules :
    load_accessible_modules storeWithInactive "u1" adminProfile
        = [legacyModule] ∧
    legacyModule.is_active = false ∧
    get_active_modules storeWithInactive = [] := by decide

/-- Claim C8: `logout()` always clears the five session-state fields, for
every environment behavior (the source makes no identity-provider sign-out
call, and the logger absorbs identity-provider failures internally), and
when the activity-log insert succeeds it appends exactly one `logout`
entry for a logged-in session and none for an anonymous one (the clear
still happens either way). -/
theorem C8_logout_clears_and_logs_once (env : LogEnv) (s : SessionState) :
    (logout env s).1 = initSession ∧
    (env.insertOk = true →
      ((logout env s).2.length = if s.user.isSome then 1 else 0) ∧
      ∀ entry ∈ (logout env s).2, entry.action_type = "logout") := by
  refine ⟨rfl, fun hins => ?_⟩
  cases hu : s.user <;> simp [logout, activityLog, hins, hu]

/-- Witness for C8: with a failing identity-provider email lookup and a
succeeding insert, logging out the concrete admin session clears the state
and appends exactly one entry. -/
theorem C8_logout_witness :
    ({ emailLookup := none, insertOk := true } : LogEnv).insertOk = true ∧
    (logout { emailLookup := none, insertOk := true } adminSession).1
        = initSession ∧
    (logout { emailLookup := none, insertOk := true } adminSession).2.length
        = 1 := by
  refine ⟨rfl,
    (C8_logout_clears_and_logs_once { emailLookup := none, insertOk := true }
      adminSession).1, ?_⟩
  have h := ((C8_logout_clears_and_logs_once
    { emailLookup := none, insertOk := true } adminSession).2 rfl).1
  simpa [adminSession] using h

/-- Claim C10: whenever `login` returns a failure — provider user absent,
missing profile, inactive profile, or a raised provider error — the session
state is exactly what it was before the call. -/
theorem C10_failed_login_preserves_state (env : LoginEnv) (s : SessionState)
    (h : (login env s).1.1 = false) : (login env s).2 = s := by
  cases henv : env.auth with
  | err e =>
      simp only [login, henv]
      split_ifs <;> rfl
  | ok ou =>
      cases ou with
      | none => simp [login, henv]
      | some u =>
          cases hp : env.getProfile u.id with
          | none => simp [login, henv, hp]
          | some p =>
              by_cases hact : p.is_active.getD false
              · exfalso
                simp [login, henv, hp, hact] at h
              · simp [login, henv, hp, hact]

/-- Witness for C10: the concrete raw-error login failure leaves the
initial session unchanged. -/
theorem C10_failed_login_preserves_state_witness :
    (login envRawErr initSession).1.1 = false ∧
    (login envRawErr initSession).2 = initSession :=
  ⟨by decide, C10_failed_login_preserves_state envRawErr initSession (by decide)⟩

/-- Claim C4: for an email that is currently locked out, `handle_login`
fails immediately with the lockout message — no exception, session state
untouched — and never invokes `SessionManager.login`, hence never contacts
the credential store.  The witness instantiates this at the state reached
after the five failed attempts that set the lockout, so the sixth attempt
inside the lockout window issues no sign-in call. -/
theorem C4_lockout_blocks_provider (email : String) (t : Int) (env : LoginEnv)
    (rl : RLState) (s : SessionState)
    (hlock : is_locked_out email t rl = Except.ok (true, rl)) :
    (handle_login email t env rl s).contactedProvider = false ∧
    (handle_login email t env rl s).raised = false ∧
    (handle_login email t env rl s).session = s ∧
    ∃ m, (handle_login email t env rl s).shownMessage = some m ∧
      ∃ rest,
        m = "Too many failed login attempts. Account locked for " ++ rest := by
  cases hg : dictGet rl (lockoutKey email) with
  | none =>
      exfalso
      simp [is_locked_out, hg] at hlock
  | some d =>
      cases hlu : d.locked_until with
      | none =>
          exfalso
          simp [is_locked_out, hg, hlu] at hlock
      | some lu =>
          by_cases hlt : t < lu
          · have hrem : get_lockout_remaining_seconds email t rl
                = Except.ok (max 0 (lu - t)) := by
              simp [get_lockout_remaining_seconds, hg, hlu]
            by_cases hmin : 0 < max 0 (lu - t) / 60
            · have hfmt : format_lockout_message email t rl = Except.ok
                  ("Too many failed login attempts. Account locked for "
                    ++ (toString (max 0 (lu - t) / 60)
                      ++ ("m " ++ (toString (max 0 (lu - t) % 60) ++ "s")))) := by
                simp only [format_lockout_message, hrem]
                rw [if_pos hmin]
              have hres : handle_login email t env rl s =
                  { raised := false, contactedProvider := false,
                    shownMessage := some
                      ("Too many failed login attempts. Account locked for "
                        ++ (toString (max 0 (lu - t) / 60)
                          ++ ("m " ++ (toString (max 0 (lu - t) % 60) ++ "s")))),
                    rl := rl, session := s } := by
                simp only [handle_login, hlock, hfmt]
              rw [hres]
              exact ⟨rfl, rfl, rfl, _, rfl, _, rfl⟩
            · have hfmt : format_lockout_message email t rl = Except.ok
                  ("Too many failed login attempts. Account locked for "
                    ++ (toString (max 0 (lu - t) % 60) ++ " seconds")) := by
                simp only [format_lockout_message, hrem]
                rw [if_neg hmin]
              have hres : handle_login email t env rl s =
                  { raised := false, contactedProvider := false,
                    shownMessage := some
                      ("Too many failed login attempts. Account locked for "
                        ++ (toString (max 0 (lu - t) % 60) ++ " seconds")),
                    rl := rl, session := s } := by
                simp only [handle_login, hlock, hfmt]
              rw [hres]
              exact ⟨rfl, rfl, rfl, _, rfl, _, rfl⟩
          · exfalso
            simp [is_locked_out, hg, hlu, hlt] at hlock

/-- Witness for C4: the state locked by five failed attempts at times
10..50 is still locked at time 60, and the sixth login attempt there is
answered without contacting the provider and without raising. -/
theorem C4_lockout_blocks_provider_witness :
    is_locked_out "a@x.com" 60 rlLocked = Except.ok (true, rlLocked) ∧
    ((handle_login "a@x.com" 60 envRawErr rlLocked
        initSession).contactedProvider = false ∧
      (handle_login "a@x.com" 60 envRawErr rlLocked initSession).raised
        = false ∧
      (handle_login "a@x.com" 60 envRawErr rlLocked initSession).session
        = initSession) := by
  have hlock : is_locked_out "a@x.com" 60 rlLocked
      = Except.ok (true, rlLocked) := by rfl
  have h := C4_lockout_blocks_provider "a@x.com" 60 envRawErr rlLocked
    initSession hlock
  exact ⟨hlock, h.1, h.2.1, h.2.2.1⟩

/-- Claim C7: starting from a state with no entry for the email, five
failed attempts at times t1..t5 inside the attempt window produce an entry
of five attempts locked until t5 plus 300; the session is locked out
exactly for clock values below that bound, `get_remaining_attempts`
returns 0 throughout the lockout, and immediately after
`record_successful_login` it returns 5 with all counter state cleared.
(t1 is nonzero because the source tests the stored first-attempt
timestamp for Python truthiness, under which time 0.0 would count as
absent.) -/
theorem C7_rate_limiter_policy (email : String) (s : RLState)
    (t1 t2 t3 t4 t5 : Int)
    (h0 : dictGet s (lockoutKey email) = none) (ht1 : t1 ≠ 0)
    (hw2 : t2 - t1 ≤ ATTEMPT_WINDOW_SECONDS)
    (hw3 : t3 - t1 ≤ ATTEMPT_WINDOW_SECONDS)
    (hw4 : t4 - t1 ≤ ATTEMPT_WINDOW_SECONDS)
    (hw5 : t5 - t1 ≤ ATTEMPT_WINDOW_SECONDS) :
    dictGet (rfa5 email t1 t2 t3 t4 t5 s) (lockoutKey email)
      = some { attempts := 5, first_attempt := some t1,
               locked_until := some (t5 + LOCKOUT_DURATION_SECONDS) } ∧
    (∀ t : Int,
      (is_locked_out email t (rfa5 email t1 t2 t3 t4 t5 s)
          = Except.ok (true, rfa5 email t1 t2 t3 t4 t5 s))
        ↔ t < t5 + LOCKOUT_DURATION_SECONDS) ∧
    (∀ t : Int, t < t5 + LOCKOUT_DURATION_SECONDS →
      get_remaining_attempts email t (rfa5 email t1 t2 t3 t4 t5 s)
        = Except.ok (0, rfa5 email t1 t2 t3 t4 t5 s)) ∧
    (∀ t : Int,
      get_remaining_attempts email t
          (record_successful_login email (rfa5 email t1 t2 t3 t4 t5 s))
        = Except.ok (5,
            record_successful_login email (rfa5 email t1 t2 t3 t4 t5 s))) := by
  have e1 := rfa_fresh email t1 s h0
  have e2 := rfa_count email t1 t2 (record_failed_attempt email t1 s) 1 e1
    ht1 hw2 (by decide)
  have e3 := rfa_count email t1 t3
    (record_failed_attempt email t2 (record_failed_attempt email t1 s)) 2 e2
    ht1 hw3 (by decide)
  have e4 := rfa_count email t1 t4
    (record_failed_attempt email t3 (record_failed_attempt email t2
      (record_failed_attempt email t1 s))) 3 e3 ht1 hw4 (by decide)
  have e5 := rfa_lock email t1 t5
    (record_failed_attempt email t4 (record_failed_attempt email t3
      (record_failed_attempt email t2 (record_failed_attempt email t1 s))))
    e4 ht1 hw5
  have e5r : dictGet (rfa5 email t1 t2 t3 t4 t5 s) (lockoutKey email)
      = some { attempts := 5, first_attempt := some t1,
               locked_until := some (t5 + LOCKOUT_DURATION_SECONDS) } := e5
  have hiff : ∀ t : Int,
      (is_locked_out email t (rfa5 email t1 t2 t3 t4 t5 s)
          = Except.ok (true, rfa5 email t1 t2 t3 t4 t5 s))
        ↔ t < t5 + LOCKOUT_DURATION_SECONDS := by
    intro t
    constructor
    · intro h
      by_contra hnot
      push_neg at hnot
      simp [is_locked_out, e5r, not_lt.mpr hnot] at h
    · intro h
      simp [is_locked_out, e5r, h]
  refine ⟨e5r, hiff, ?_, ?_⟩
  · intro t ht
    simp [get_remaining_attempts, hiff t |>.mpr ht]
  · intro t
    simp [get_remaining_attempts, is_locked_out, record_successful_login,
      dictGet_dictDel_self, MAX_ATTEMPTS]

/-- Witness for C7: email a@x.com, five failed attempts at times
10, 20, 30, 40, 50 from the empty state; the entry is locked until 350,
remaining attempts are 0 at time 60 (inside the lockout) and 5 right after
a successful login. -/
theorem C7_rate_limiter_policy_witness :
    dictGet ([] : RLState) (lockoutKey "a@x.com") = none ∧
    (dictGet rlLocked (lockoutKey "a@x.com")
        = some { attempts := 5, first_attempt := some 10,
                 locked_until := some 350 } ∧
      get_remaining_attempts "a@x.com" 60 rlLocked
        = Except.ok (0, rlLocked) ∧
      get_remaining_attempts "a@x.com" 400
          (record_successful_login "a@x.com" rlLocked)
        = Except.ok (5, record_successful_login "a@x.com" rlLocked)) := by
  have h := C7_rate_limiter_policy "a@x.com" [] 10 20 30 40 50 rfl
    (by decide) (by decide) (by decide) (by decide) (by decide)
  refine ⟨rfl, ?_, h.2.2.1 60 (by decide), h.2.2.2 400⟩
  have h1 := h.1
  norm_num [LOCKOUT_DURATION_SECONDS] at h1
  exact h1

/-- Claim C9, counterexample: with a 5-page listing whose failing page is
page 1 itself, the reported page count defaults to 1, no further pages are
fetched, and `fetch_orders` returns no records at all — not the records of
the other 4 pages, which are nonempty. -/
theorem C9_counterexample :
    fetch_orders envPage1Fails [2, 3, 4, 5] = [] ∧
    pageRecords envPage1Fails 2 = [20] ∧
    pageRecords envPage1Fails 3 = [30] ∧
    pageRecords envPage1Fails 4 = [40] ∧
    pageRecords envPage1Fails 5 = [50] := by decide

/-- Claim C9 as amended: when page 1 succeeds, the fetch returns — in some
order — page 1's records together with the records of every successful
page among 2..total, for any completion order of the worker pool; a page
that fails after all retries (necessarily a page other than page 1, whose
failure instead collapses the page count to 1) contributes zero records
while the other pages' records are still returned. -/
theorem C9_amended_partial_pages (env : PageEnv) (order : List Nat)
    (r1 : List Nat) (h1 : env.page 1 = some r1) (hn : 1 < env.totalPages)
    (hperm : order.Perm (List.range' 2 (env.totalPages - 1))) :
    (fetch_orders env order).Perm
      (r1 ++ (List.range' 2 (env.totalPages - 1)).flatMap (pageRecords env)) := by
  simp only [fetch_orders, fetch_single_page, h1]
  rw [if_pos hn, foldl_append_flatMap]
  exact (hperm.flatMap_right (pageRecords env)).append_left r1

/-- Witness for C9 as amended: a 5-page endpoint whose page 4 fails, with
completion order 3, 5, 2, 4, still yields a permutation of the records of
pages 1, 2, 3 and 5. -/
theorem C9_amended_partial_pages_witness :
    envPage4Fails.page 1 = some [10] ∧
    (fetch_orders envPage4Fails [3, 5, 2, 4]).Perm
      ([10] ++ (List.range' 2 (envPage4Fails.totalPages - 1)).flatMap
        (pageRecords envPage4Fails)) :=
  ⟨rfl, C9_amended_partial_pages envPage4Fails [3, 5, 2, 4] [10] rfl
    (by decide) (by decide)⟩

end B2C
